import Mathlib

/-!
# Verification of the AI-service selection / fallback core

Shallow embedding of the multi-backend AI service core of the virtual-wardrobe
application: the service factory (`aiServiceFactory`, source file with the
`AIServiceFactory` class), the three backend adapters (the direct Gemini
service `geminiService.ts`, the Vertex AI service `geminiService.vertexai.ts`,
and the mock service `geminiService.mock.ts`), and the facade functions the
factory re-exports.

External effects are modelled explicitly:
* every outbound model call is an oracle field of a `World` record, a function
  from the request prompt to the response the external endpoint produced
  (or the message of the error it threw);
* `Math.random()` draws are a stream `rand : Nat → Nat`, where the JS
  expression `Math.floor(Math.random() * n)` for the k-th draw of a call is
  modelled as `rand k % n`;
* `new Date().getMonth()` is the `month` field;
* promise rejection / thrown `Error e` is `Except.error e.message`.
-/

namespace AIWardrobe

/-- JS truthiness of a `string | null | undefined` value: `null`, `undefined`
and the empty string are falsy. -/
def jsTruthy : Option String → Bool
  | none => false
  | some s => s ≠ ""

/-- Whitespace as recognised by `String.prototype.trim` / `JSON.parse`
(restricted to the common ASCII whitespace characters). -/
def isWsChar (c : Char) : Bool :=
  c = ' ' || c = '\n' || c = '\t' || c = '\r'

/-- Drop leading whitespace characters. -/
def skipWs : List Char → List Char
  | [] => []
  | c :: cs => if isWsChar c then skipWs cs else c :: cs

/-- Model of the JS `String.prototype.trim`. -/
def jsTrim (s : String) : String :=
  (skipWs (skipWs s.toList).reverse).reverse.asString

/-- `true` iff the first list is a pointwise prefix of the second. -/
def startsWith : List Char → List Char → Bool
  | [], _ => true
  | _ :: _, [] => false
  | p :: ps, c :: cs => p = c && startsWith ps cs

/-- `true` iff `pat` occurs as a contiguous run inside the second list. -/
def hasSub (pat : List Char) : List Char → Bool
  | [] => startsWith pat []
  | c :: cs => startsWith pat (c :: cs) || hasSub pat cs

/-- Model of the JS `String.prototype.includes` used by the factory's
geo-restriction check. -/
def containsSubstr (s pat : String) : Bool :=
  hasSub pat.toList s.toList

/-- JSON values, as produced by the JS `JSON.parse`. Numbers are restricted
to integers; no claim or witness in this development exercises fractional
numeric literals. -/
inductive Json where
  | null : Json
  | bool (b : Bool) : Json
  | num (n : Int) : Json
  | str (s : String) : Json
  | arr (elems : List Json) : Json
  | obj (fields : List (String × Json)) : Json
  deriving Repr

/-- Consume an expected literal run of characters (used for `null`, `true`,
`false`). -/
def parseLit : List Char → List Char → Option (List Char)
  | [], cs => some cs
  | _ :: _, [] => none
  | l :: ls, c :: cs => if l = c then parseLit ls cs else none

/-- Parse one or more decimal digits, returning their value. -/
def parseDigits (acc : Nat) (seen : Bool) : List Char → Option (Nat × List Char)
  | [] => if seen then some (acc, []) else none
  | c :: cs =>
    if c.isDigit then parseDigits (acc * 10 + (c.toNat - '0'.toNat)) true cs
    else if seen then some (acc, c :: cs) else none

/-- Parse the four hex digits of a `\uXXXX` escape. -/
def parseHex4 : List Char → Option (Nat × List Char)
  | a :: b :: c :: d :: cs =>
    let hv : Char → Option Nat := fun ch =>
      if ch.isDigit then some (ch.toNat - '0'.toNat)
      else if 'a' ≤ ch && ch ≤ 'f' then some (ch.toNat - 'a'.toNat + 10)
      else if 'A' ≤ ch && ch ≤ 'F' then some (ch.toNat - 'A'.toNat + 10)
      else none
    match hv a, hv b, hv c, hv d with
    | some x, some y, some z, some w => some (((x * 16 + y) * 16 + z) * 16 + w, cs)
    | _, _, _, _ => none
  | _ => none

/-- Parse the body of a JSON string after the opening quote, up to and
including the closing quote. -/
def parseStringBody : Nat → List Char → Option (List Char × List Char)
  | 0, _ => none
  | _, [] => none
  | fuel + 1, c :: cs =>
    if c = '"' then some ([], cs)
    else if c = '\\' then
      match cs with
      | [] => none
      | e :: cs' =>
        let esc : Option (Char × List Char) :=
          if e = '"' then some ('"', cs')
          else if e = '\\' then some ('\\', cs')
          else if e = '/' then some ('/', cs')
          else if e = 'n' then some ('\n', cs')
          else if e = 't' then some ('\t', cs')
          else if e = 'r' then some ('\r', cs')
          else if e = 'b' then some ('\x08', cs')
          else if e = 'f' then some ('\x0c', cs')
          else if e = 'u' then
            match parseHex4 cs' with
            | some (n, rest) => if n < 0xd800 then some (Char.ofNat n, rest) else none
            | none => none
          else none
        match esc with
        | some (ch, rest) =>
          match parseStringBody fuel rest with
          | some (body, rest') => some (ch :: body, rest')
          | none => none
        | none => none
    else
      match parseStringBody fuel cs with
      | some (body, rest) => some (c :: body, rest)
      | none => none

mutual

/-- Parse a single JSON value (after `fuel`-bounded recursion); models the
grammar accepted by the JS `JSON.parse`. -/
def parseVal : Nat → List Char → Option (Json × List Char)
  | 0, _ => none
  | fuel + 1, cs =>
    match skipWs cs with
    | [] => none
    | c :: rest =>
      if c = 'n' then (parseLit ['u', 'l', 'l'] rest).map (Json.null, ·)
      else if c = 't' then (parseLit ['r', 'u', 'e'] rest).map (Json.bool true, ·)
      else if c = 'f' then (parseLit ['a', 'l', 's', 'e'] rest).map (Json.bool false, ·)
      else if c = '"' then
        match parseStringBody (rest.length + 1) rest with
        | some (body, rest') => some (Json.str body.asString, rest')
        | none => none
      else if c = '[' then
        match skipWs rest with
        | ']' :: rest' => some (Json.arr [], rest')
        | _ =>
          match parseArrItems fuel rest with
          | some (xs, rest') => some (Json.arr xs, rest')
          | none => none
      else if c = '\x7b' then
        match skipWs rest with
        | '\x7d' :: rest' => some (Json.obj [], rest')
        | _ =>
          match parseObjItems fuel rest with
          | some (fs, rest') => some (Json.obj fs, rest')
          | none => none
      else if c = '-' then
        match parseDigits 0 false rest with
        | some (n, rest') => some (Json.num (-(n : Int)), rest')
        | none => none
      else if c.isDigit then
        match parseDigits 0 false (c :: rest) with
        | some (n, rest') => some (Json.num (n : Int), rest')
        | none => none
      else none

/-- Parse the comma-separated items of a non-empty JSON array, including the
closing bracket. -/
def parseArrItems : Nat → List Char → Option (List Json × List Char)
  | 0, _ => none
  | fuel + 1, cs =>
    match parseVal fuel cs with
    | none => none
    | some (x, rest) =>
      match skipWs rest with
      | ',' :: rest' =>
        match parseArrItems fuel rest' with
        | some (xs, rest'') => some (x :: xs, rest'')
        | none => none
      | ']' :: rest' => some ([x], rest')
      | _ => none

/-- Parse the comma-separated fields of a non-empty JSON object, including the
closing brace. -/
def parseObjItems : Nat → List Char → Option (List (String × Json) × List Char)
  | 0, _ => none
  | fuel + 1, cs =>
    match skipWs cs with
    | '"' :: rest =>
      match parseStringBody (rest.length + 1) rest with
      | none => none
      | some (key, rest') =>
        match skipWs rest' with
        | ':' :: rest'' =>
          match parseVal fuel rest'' with
          | none => none
          | some (v, rest3) =>
            match skipWs rest3 with
            | ',' :: rest4 =>
              match parseObjItems fuel rest4 with
              | some (fs, rest5) => some ((key.asString, v) :: fs, rest5)
              | none => none
            | '\x7d' :: rest4 => some ([(key.asString, v)], rest4)
            | _ => none
        | _ => none
    | _ => none

end

/-- Model of the JS `JSON.parse`: `none` when `JSON.parse` would throw a
`SyntaxError`, `some v` when it returns the value `v`. -/
def jsonParse (s : String) : Option Json :=
  let cs := s.toList
  match parseVal (cs.length + 2) cs with
  | some (j, rest) => if skipWs rest = [] then some j else none
  | none => none

/-- The (modelled) message of the `SyntaxError` thrown by `JSON.parse` on
malformed input. -/
def jsonParseErrorMsg : String := "Unexpected token in JSON"

/-- The base64 alphabet. -/
def base64Chars : List Char :=
  "ABCDEFGHIJKLMNOPQRSTUVWXYZabcdefghijklmnopqrstuvwxyz0123456789+/".toList

/-- The base64 digit for a 6-bit value. -/
def b64digit (n : Nat) : Char := base64Chars.getD n 'A'

/-- Base64-encode a byte list (values `< 256`), with `=` padding. -/
def base64Encode : List Nat → List Char
  | [] => []
  | [b1] =>
    b64digit (b1 / 4) :: b64digit (b1 % 4 * 16) :: '=' :: '=' :: []
  | [b1, b2] =>
    b64digit (b1 / 4) :: b64digit (b1 % 4 * 16 + b2 / 16) ::
      b64digit (b2 % 16 * 4) :: '=' :: []
  | b1 :: b2 :: b3 :: rest =>
    b64digit (b1 / 4) :: b64digit (b1 % 4 * 16 + b2 / 16) ::
      b64digit (b2 % 16 * 4 + b3 / 64) :: b64digit (b3 % 64) :: base64Encode rest

/-- `true` iff every character of the string is a Latin-1 code unit (code
point `< 256`), the domain on which the browser `btoa` is defined. -/
def isLatin1 (s : String) : Bool :=
  s.toList.all (fun c => c.toNat < 256)

/-- Model of the browser `btoa`: base64-encode the code units of a Latin-1
string, and throw `InvalidCharacterError` (modelled as `Except.error`) when
any character's code point exceeds 255. -/
def btoa (s : String) : Except String String :=
  if isLatin1 s then .ok ((base64Encode (s.toList.map Char.toNat)).asString)
  else .error "InvalidCharacterError"

/-- `TOP`/`BOTTOM` classification of a clothing item (`ClothingType` in
`types.ts`). -/
inductive ClothingType where
  | TOP : ClothingType
  | BOTTOM : ClothingType
  deriving Repr, DecidableEq

/-- A closet item (`ClothingItem` in `types.ts`). `tags` is optional there. -/
structure ClothingItem where
  id : String
  type : ClothingType
  description : String
  imageUrl : String
  tags : Option (List String) := none
  deriving Repr

/-- The `{ imageBase64: string | null; text: string | null }` result shape all
outfit-composition operations share. -/
structure AIResult where
  imageBase64 : Option String
  text : Option String
  deriving Repr, DecidableEq

/-- A `'liked' | 'disliked'` feedback entry for a style name. -/
inductive Pref where
  | liked : Pref
  | disliked : Pref
  deriving Repr, DecidableEq

/-- One part of a model response candidate. `inlineData` collapses the JS
`part.inlineData && part.inlineData.data` access: `some d` when `inlineData`
is present with `data: d`, `none` when `inlineData` is absent (a present
`inlineData` without usable `data` behaves like `none` in every read the
sources perform, via JS truthiness). -/
structure GPart where
  inlineData : Option String := none
  text : Option String := none
  deriving Repr

/-- The `content` object of a model response candidate; `parts` may be
absent. -/
structure GContent where
  parts : Option (List GPart) := none
  deriving Repr

/-- One candidate of a model response; `content` may be absent. -/
structure GCandidate where
  content : Option GContent := none
  deriving Repr

/-- A `generateContent` response: the `candidates` array may be absent. -/
structure GResponse where
  candidates : Option (List GCandidate) := none
  deriving Repr

/-- The guard `response.candidates && response.candidates[0].content &&
response.candidates[0].content.parts` shared by both Gemini response readers.
`ok none` means the guard was falsy (the reader skips its body); `ok (some
parts)` means the guard passed with that parts list; `error` models the
`TypeError` thrown when `candidates` is a non-empty-check-passing empty array
and `candidates[0]` is `undefined`. -/
def guardParts (r : GResponse) : Except String (Option (List GPart)) :=
  match r.candidates with
  | none => .ok none
  | some [] => .error "Cannot read properties of undefined (reading 'content')"
  | some (c :: _) =>
    match c.content with
    | none => .ok none
    | some content => .ok content.parts

/-- The part-scanning loop of `callImageEditAPI` / `callVertexAIImageAPI`:
`if (part.inlineData && part.inlineData.data) imageBase64 = ... else if
(part.text) text = ...`, folded over the parts in order. -/
def scanParts (parts : List GPart) : Option String × Option String :=
  parts.foldl
    (fun acc p =>
      if jsTruthy p.inlineData then (p.inlineData, acc.2)
      else if jsTruthy p.text then (acc.1, p.text)
      else acc)
    (none, none)

/-- Extract `(imageBase64, text)` from a `generateContent` response exactly as
the adapters' readers do (guard, then part scan). -/
def extractImageText (r : GResponse) : Except String (Option String × Option String) :=
  match guardParts r with
  | .error e => .error e
  | .ok none => .ok (none, none)
  | .ok (some parts) => .ok (scanParts parts)

/-- The external world an adapter call runs against. Each oracle maps the
request's prompt text to the external endpoint's behaviour for that request:
`.ok` the response, `.error` the message of the thrown/rejected error.
(Requests also carry images; the sources never branch on them, so the model
keys responses by prompt alone.) -/
structure World where
  /-- `Math.random()` draws: the k-th draw of a call, already floored against
  its range `n` as `rand k % n`. -/
  rand : Nat → Nat := fun _ => 0
  /-- `new Date().getMonth()`, `0`–`11`. -/
  month : Nat := 0
  /-- `ai.models.generateContent` on `gemini-2.5-flash-image-preview`
  (image editing); used by `callImageEditAPI`. -/
  directEdit : String → Except String GResponse := fun _ => .error "unavailable"
  /-- `ai.models.generateContent` on `gemini-2.5-flash` for the outfit-design
  step, returning the SDK's aggregated `response.text`. -/
  directDesign : String → Except String String := fun _ => .error "unavailable"
  /-- `ai.models.generateContent` on `gemini-2.5-flash` with the structured
  recommendation schema, returning the SDK's aggregated `response.text`. -/
  directRecs : String → Except String String := fun _ => .error "unavailable"
  /-- `ai.models.generateImages` on `imagen-4.0-generate-001`:
  the `generatedImages` array (absent, or a list of `image.imageBytes`). -/
  directImages : String → Except String (Option (List String)) := fun _ => .error "unavailable"
  /-- The Vertex AI `model.generateContent` endpoint. -/
  vertexGen : String → Except String GResponse := fun _ => .error "unavailable"

/-- The string value of a `ClothingType` (`'TOP' | 'BOTTOM'`). -/
def ClothingType.toStr : ClothingType → String
  | .TOP => "TOP"
  | .BOTTOM => "BOTTOM"

namespace MockService

/-!
Embedding of `geminiService.mock.ts`. The `delay(...)` calls only pause;
they consume the call's 0-th `Math.random()` draw and do not touch the
returned value, so they are not represented beyond that draw index.
The only way a mock operation can reject is the `btoa` call in
`generateClothingItem`, which throws when its SVG contains a character
outside Latin-1.
-/

/-- The three canned outfit data URLs (`mockOutfitImages`). -/
def mockOutfitImages : List String :=
  ["data:image/svg+xml;base64,PHN2ZyB3aWR0aD0iNDAwIiBoZWlnaHQ9IjQwMCIgeG1sbnM9Imh0dHA6Ly93d3cudzMub3JnLzIwMDAvc3ZnIj48cmVjdCB3aWR0aD0iMTAwJSIgaGVpZ2h0PSIxMDAlIiBmaWxsPSIjZjBmMGYwIi8+PHRleHQgeD0iNTAlIiB5PSI1MCUiIGZvbnQtZmFtaWx5PSJBcmlhbCIgZm9udC1zaXplPSIxOCIgZmlsbD0iIzMzMyIgdGV4dC1hbmNob3I9Im1pZGRsZSIgZHk9Ii4zZW0iPk1vY2sgT3V0Zml0IEltYWdlPC90ZXh0Pjwvc3ZnPg==",
   "data:image/svg+xml;base64,PHN2ZyB3aWR0aD0iNDAwIiBoZWlnaHQ9IjQwMCIgeG1sbnM9Imh0dHA6Ly93d3cudzMub3JnLzIwMDAvc3ZnIj48cmVjdCB3aWR0aD0iMTAwJSIgaGVpZ2h0PSIxMDAlIiBmaWxsPSIjZTBmMGZmIi8+PHRleHQgeD0iNTAlIiB5PSI1MCUiIGZvbnQtZmFtaWx5PSJBcmlhbCIgZm9udC1zaXplPSIxOCIgZmlsbD0iIzMzMyIgdGV4dC1hbmNob3I9Im1pZGRsZSIgZHk9Ii4zZW0iPkNhc3VhbCBPdXRmaXQ8L3RleHQ+PC9zdmc+",
   "data:image/svg+xml;base64,PHN2ZyB3aWR0aD0iNDAwIiBoZWlnaHQ9IjQwMCIgeG1sbnM9Imh0dHA6Ly93d3cudzMub3JnLzIwMDAvc3ZnIj48cmVjdCB3aWR0aD0iMTAwJSIgaGVpZ2h0PSIxMDAlIiBmaWxsPSIjZmZmMGUwIi8+PHRleHQgeD0iNTAlIiB5PSI1MCUiIGZvbnQtZmFtaWx5PSJBcmlhbCIgZm9udC1zaXplPSIxOCIgZmlsbD0iIzMzMyIgdGV4dC1hbmNob3I9Im1pZGRsZSIgZHk9Ii4zZW0iPkZvcm1hbCBPdXRmaXQ8L3RleHQ+PC9zdmc+"]

/-- `randomImage.split(',')[1]`: the part after the data-URL comma
(`undefined`, i.e. `none`, if there is no second segment). -/
def afterComma (s : String) : Option String :=
  (s.splitOn ",").get? 1

/-- Mock `generateOutfit`. Draw 0 is the delay; draw 1 picks the canned
image. -/
def generateOutfit (_base64ImageData _mimeType prompt : String)
    (topImageUrl bottomImageUrl : Option String) (rand : Nat → Nat) : AIResult :=
  let randomImage := mockOutfitImages.getD (rand 1 % mockOutfitImages.length) ""
  let mockDescription :=
    "Mock outfit generated based on your prompt: \"" ++ prompt ++
    "\". This is a simulated response showing how the virtual try-on would work with " ++
    (if jsTruthy topImageUrl then "top" else "no top") ++ " and " ++
    (if jsTruthy bottomImageUrl then "bottom" else "no bottom") ++ " reference images."
  { imageBase64 := afterComma randomImage, text := some mockDescription }

/-- The mock style list. -/
def mockStyles : List String :=
  ["casual chic", "streetwear", "business casual", "minimalist", "bohemian",
   "preppy", "athletic leisure", "vintage-inspired", "smart casual", "edgy rock"]

/-- The mock season list. -/
def mockSeasons : List String := ["Spring", "Summer", "Autumn", "Winter"]

/-- Mock `generateAndRecommendOutfit`. Draw 0 is the delay; draws 1–3 pick
style, season and image. -/
def generateAndRecommendOutfit (_base64ImageData _mimeType : String)
    (rand : Nat → Nat) : AIResult :=
  let randomStyle := mockStyles.getD (rand 1 % mockStyles.length) ""
  let currentSeason := mockSeasons.getD (rand 2 % mockSeasons.length) ""
  let randomImage := mockOutfitImages.getD (rand 3 % mockOutfitImages.length) ""
  let mockDescription :=
    "I've created a " ++ randomStyle ++ " outfit perfect for " ++ currentSeason ++
    "! This mock outfit combines comfort and style, featuring carefully selected pieces that complement your look. The background has been updated to match the seasonal vibe."
  { imageBase64 := afterComma randomImage, text := some mockDescription }

/-- One entry of the mock recommendation list before serialisation; `topId`
and `bottomId` mirror the possibly-`undefined` JS object properties. -/
structure MockRec where
  styleName : String
  description : String
  topId : Option String := none
  bottomId : Option String := none

/-- The JS object a `MockRec` denotes (properties holding `undefined` are
absent from the serialised object). -/
def MockRec.toJson (r : MockRec) : Json :=
  Json.obj
    ([("styleName", Json.str r.styleName), ("description", Json.str r.description)] ++
      (match r.topId with | some t => [("topId", Json.str t)] | none => []) ++
      (match r.bottomId with | some b => [("bottomId", Json.str b)] | none => []))

/-- Mock `getStyleRecommendations`. Draw 0 is the delay; the result does not
depend on it. -/
def getStyleRecommendations (closet : List ClothingItem) (_rand : Nat → Nat) : Json :=
  if closet.length = 0 then Json.arr []
  else
    let topId := (closet.find? (fun item => item.type = ClothingType.TOP)).map (·.id)
    let bottomId := (closet.find? (fun item => item.type = ClothingType.BOTTOM)).map (·.id)
    let mockRecommendations : List MockRec :=
      ([{ styleName := "Casual Weekend",
          description := "Perfect for relaxed weekend activities with a comfortable yet put-together look.",
          topId := topId, bottomId := bottomId },
        { styleName := "Smart Casual",
          description := "Great for casual office days or dinner dates - professional but approachable.",
          topId := topId, bottomId := bottomId },
        { styleName := "Effortless Chic",
          description := "Minimalist styling that looks effortlessly elegant for any occasion.",
          topId := topId }]).filter
        (fun rec => jsTruthy rec.topId || jsTruthy rec.bottomId)
    Json.arr ((mockRecommendations.take 3).map MockRec.toJson)

/-- The head chunk of the mock SVG template (everything before the first
interpolation). -/
def svgHead : String :=
  "\n        <svg width=\"300\" height=\"300\" xmlns=\"http://www.w3.org/2000/svg\">\n            <rect width=\"100%\" height=\"100%\" fill=\"#f8f9fa\" stroke=\"#dee2e6\" stroke-width=\"2\"/>\n            <text x=\"50%\" y=\"30%\" font-family=\"Arial\" font-size=\"14\" fill=\"#495057\" text-anchor=\"middle\">\n                Mock "

/-- The parameter-specific mock SVG (`mockSvg` template literal). -/
def mockSvg (style color : String) (type : ClothingType) (customDescription : String) : String :=
  svgHead ++ type.toStr ++
  "\n            </text>\n            <text x=\"50%\" y=\"45%\" font-family=\"Arial\" font-size=\"12\" fill=\"#6c757d\" text-anchor=\"middle\">\n                Style: " ++
  style ++
  "\n            </text>\n            <text x=\"50%\" y=\"55%\" font-family=\"Arial\" font-size=\"12\" fill=\"#6c757d\" text-anchor=\"middle\">\n                Color: " ++
  color ++
  "\n            </text>\n            <text x=\"50%\" y=\"70%\" font-family=\"Arial\" font-size=\"10\" fill=\"#868e96\" text-anchor=\"middle\">\n                " ++
  customDescription ++
  "\n            </text>\n        </svg>\n    "

/-- Mock `generateClothingItem`: `btoa(mockSvg)`. Draw 0 is the delay; the
result does not consult the randomness stream. The call rejects exactly when
`btoa` throws, i.e. when an interpolated argument carries a character outside
Latin-1 (the fixed template text is ASCII). -/
def generateClothingItem (style color : String) (type : ClothingType)
    (customDescription : String) (_rand : Nat → Nat) : Except String String :=
  btoa (mockSvg style color type customDescription)

end MockService

/-- A parsed reference image (`ImagePart` / `ReferenceImage`). -/
structure ImagePart where
  base64 : String
  mimeType : String
  deriving Repr

/-- Word character of the `\w` regex class. -/
def isWordChar (c : Char) : Bool := c.isAlphanum || c = '_'

/-- `parseDataUrl`, the regex match against `^data:(image\/\w+);base64,(.*)$`
(identical private copies live in `geminiService.ts` and
`geminiService.vertexai.ts`). -/
def parseDataUrl (dataUrl : String) : Option ImagePart :=
  match parseLit "data:image/".toList dataUrl.toList with
  | none => none
  | some rest =>
    let word := rest.takeWhile isWordChar
    if word = [] then none
    else
      match parseLit ";base64,".toList (rest.dropWhile isWordChar) with
      | none => none
      | some payload =>
        some { mimeType := "image/" ++ word.asString, base64 := payload.asString }

namespace GeminiDirect

/-!
Embedding of `geminiService.ts` (the direct Gemini adapter). The module-level
`GoogleGenAI` client is represented by the `direct*` oracles of `World`.
-/

/-- `getCurrentSeason` (direct version, Chinese labels). -/
def getCurrentSeason (month : Nat) : String :=
  if 2 ≤ month && month ≤ 4 then "春季"
  else if 5 ≤ month && month ≤ 7 then "夏季"
  else if 8 ≤ month && month ≤ 10 then "秋季"
  else "冬季"

/-- `callImageEditAPI`: one `generateContent` round-trip on the image-editing
model, extraction of the `(image, text)` pair, the both-empty guard, and the
catch-all wrapper that rethrows any failure as `Gemini API 錯誤: <message>`.
The reference images are part of the request but never branched on, so the
oracle is keyed by the prompt. -/
def callImageEditAPI (_base64ImageData _mimeType prompt : String)
    (_referenceImages : List ImagePart) (w : World) : Except String AIResult :=
  match w.directEdit prompt with
  | .error msg => .error ("Gemini API 錯誤: " ++ msg)
  | .ok resp =>
    match extractImageText resp with
    | .error msg => .error ("Gemini API 錯誤: " ++ msg)
    | .ok (imageBase64, text) =>
      if !jsTruthy imageBase64 && !jsTruthy text then
        .error ("Gemini API 錯誤: " ++ "Gemini API 回應無效。找不到圖片。")
      else
        .ok { imageBase64 := imageBase64, text := text }

/-- The 14 styles the design step draws from. -/
def designStyles : List String :=
  ["休閒時尚", "街頭風", "商務休閒", "極簡主義", "波希米亞風",
   "學院風", "運動休閒", "復古風格", "智慧休閒", "搖滾風",
   "經典風", "前衛風", "混搭風", "都會精緻風"]

/-- The `designPrompt` template of `generateAndRecommendOutfit`. -/
def designPrompt (randomStyle currentSeason : String) : String :=
  "你是一位 AI 時尚設計師。根據這張模特兒的照片，為他們設計一套適合「" ++ currentSeason ++
  "」的「" ++ randomStyle ++ "」風格穿搭。\n    \n你的任務是只回傳一個清晰、具體的穿搭文字描述，供另一位 AI 造型師進行圖片編輯。\n\n描述中必須包含：\n1.  **上半身**：詳細描述衣物的款式、顏色、材質。\n2.  **下半身**：詳細描述衣物的款式、顏色、材質。\n3.  **鞋款**：建議搭配的鞋款。\n\n請直接輸出穿搭描述，不要包含任何額外的問候語或標題。例如：「一件米白色的寬鬆亞麻襯衫，搭配一條深藍色的九分斜紋褲，腳上穿著一雙白色的帆布鞋。」"

/-- The `editPrompt` template of `generateAndRecommendOutfit`. -/
def editPrompt (outfitDescription : String) : String :=
  "**任務：虛擬試穿**\n**輸入：**\n- **主圖：** 模特兒的原始照片。\n\n**指令：**\n1. **替換衣物：** 根據以下描述，將模特兒身上的衣物替換掉：\n   **穿搭描述：** \"" ++
  outfitDescription ++
  "\"\n2. **嚴格限制：** 絕對不要更改模特兒的姿勢、臉部表情、髮型或背景。背景必須與原始照片完全一致。\n3. **文字輸出：** 將原始的穿搭描述 \"" ++
  outfitDescription ++ "\" 作為「AI 造型師筆記」回傳，並在前面加上一句友善的引言。"

/-- Direct `generateAndRecommendOutfit`: design step (uncaught — its failures
propagate raw), then the edit step inside the `try` whose `catch` replaces any
failure — including the response carrying no image — with the fixed
please-retry message. Draw 0 picks the style. -/
def generateAndRecommendOutfit (base64ImageData mimeType : String)
    (w : World) : Except String AIResult :=
  let randomStyle := designStyles.getD (w.rand 0 % designStyles.length) ""
  let currentSeason := getCurrentSeason w.month
  match w.directDesign (designPrompt randomStyle currentSeason) with
  | .error msg => .error msg
  | .ok designText =>
    let outfitDescription := jsTrim designText
    if outfitDescription = "" then
      .error "AI 設計師未能產生穿搭描述。"
    else
      match callImageEditAPI base64ImageData mimeType (editPrompt outfitDescription) [] w with
      | .error _ => .error "抱歉，AI 暫時無法完成這次的虛擬試穿。請稍後再試一次。"
      | .ok editResult =>
        if jsTruthy editResult.imageBase64 then
          .ok editResult
        else
          .error "抱歉，AI 暫時無法完成這次的虛擬試穿。請稍後再試一次。"

/-- The recommendation prompt of the direct `getStyleRecommendations`,
including the optional like/dislike feedback section. -/
def recPrompt (closet : List ClothingItem)
    (feedback : Option (List (String × Pref))) : String :=
  let closetDescriptions := String.intercalate "\n"
    (closet.map fun item =>
      "id: \"" ++ item.id ++ "\", 描述: \"" ++ item.description ++ "\" (" ++
        (if item.type = ClothingType.TOP then "上半身" else "下半身") ++ ")")
  let base :=
    "你是一位時尚造型師。請根據以下的衣物單品，推薦 3 套風格獨特的穿搭。對於每一套推薦，請提供一個 \"styleName\" (風格名稱)、一個 \"description\" (描述)，以及要組合的衣物的確切 \"topId\" 和 \"bottomId\" (來自下方清單)。"
  let withFeedback :=
    match feedback with
    | some fs =>
      if fs.length > 0 then
        base ++ "\n\n請務必考慮以下使用者的偏好：\n" ++
          String.intercalate "\n"
            (fs.map fun entry =>
              "- 對於「" ++ entry.1 ++ "」風格，使用者表示" ++
                (if entry.2 = Pref.liked then "喜歡" else "不喜歡") ++ "。") ++
          "\n請生成全新的、符合使用者偏好的推薦。"
      else base
    | none => base
  withFeedback ++ "\n\n我的衣櫥 (格式為: id: \"uuid\", 描述: \"desc\" (類型)):\n" ++
    closetDescriptions ++
    "\n\n請回傳一個符合 schema 的有效 JSON 陣列。如果一套穿搭只用到上半身，請省略 bottomId，反之亦然。"

/-- Direct `getStyleRecommendations(closet, feedback?)`: schema-constrained
call, `JSON.parse` of the trimmed response text (returned unvalidated), and
the catch-all wrapper `Gemini API 錯誤: <message>` around any failure. -/
def getStyleRecommendations (closet : List ClothingItem)
    (feedback : Option (List (String × Pref))) (w : World) : Except String Json :=
  match w.directRecs (recPrompt closet feedback) with
  | .error msg => .error ("Gemini API 錯誤: " ++ msg)
  | .ok responseText =>
    match jsonParse (jsTrim responseText) with
    | some recommendations => .ok recommendations
    | none => .error ("Gemini API 錯誤: " ++ jsonParseErrorMsg)

/-- The garment-synthesis prompt of the direct `generateClothingItem`. -/
def clothingPrompt (style color : String) (type : ClothingType)
    (customDescription : String) : String :=
  "一張高品質、專業拍攝的單件衣物棚拍照片：一件來自某個時裝系列的" ++
  (if type = ClothingType.TOP then "上半身" else "下半身") ++
  "。\n風格：" ++ style ++ "。\n色調：" ++ color ++ "。\n描述：" ++ customDescription ++
  "。\n此單品以平鋪或在假人模特兒身上的方式展示，背景為純白色，沒有真人模特兒。專注於布料的質地和細節。"

/-- Direct `generateClothingItem`: `generateImages`, then the first image's
bytes if `generatedImages` is present and non-empty, otherwise the
`AI 未回傳任何圖片。` failure; everything wrapped by the catch-all
`Gemini API 錯誤: <message>`. -/
def generateClothingItem (style color : String) (type : ClothingType)
    (customDescription : String) (w : World) : Except String String :=
  match w.directImages (clothingPrompt style color type customDescription) with
  | .error msg => .error ("Gemini API 錯誤: " ++ msg)
  | .ok generatedImages =>
    match generatedImages with
    | some (firstImageBytes :: _) => .ok firstImageBytes
    | _ => .error ("Gemini API 錯誤: " ++ "AI 未回傳任何圖片。")

/-- Modelled from the spec: the direct adapter's `generateOutfit` is missing
from the sources under `src/` — only its unit tests, the embedded design
document and the factory's `AIService` wiring reference it. Per those tests
("should successfully generate outfit with reference images", "should handle
null reference images") it parses the optional top/bottom data URLs into
reference images and delegates to `callImageEditAPI` with the caller's
prompt, exactly as the Vertex AI version of the same operation does. -/
def generateOutfit (base64ImageData mimeType prompt : String)
    (topImageUrl bottomImageUrl : Option String) (w : World) : Except String AIResult :=
  let referenceImages :=
    (match topImageUrl.bind parseDataUrl with | some p => [p] | none => []) ++
    (match bottomImageUrl.bind parseDataUrl with | some p => [p] | none => [])
  callImageEditAPI base64ImageData mimeType prompt referenceImages w

end GeminiDirect

namespace VertexAI

/-!
Embedding of `geminiService.vertexai.ts` (the cloud-proxied adapter). The
module-level `VertexAI` client and its `gemini-1.5-flash` model are
represented by the `vertexGen` oracle of `World`; the module top level never
throws (missing configuration only substitutes defaults). -/

/-- `getCurrentSeason` (Vertex version, English labels). -/
def getCurrentSeason (month : Nat) : String :=
  if 2 ≤ month && month ≤ 4 then "Spring"
  else if 5 ≤ month && month ≤ 7 then "Summer"
  else if 8 ≤ month && month ≤ 10 then "Autumn"
  else "Winter"

/-- `callVertexAIImageAPI`: one `generateContent` round-trip, the part scan,
and then the hard-coded degradation — `imageBase64` is always `null` and
`text` falls back to a fixed placeholder when the response text is falsy;
failures are rethrown as `Vertex AI Gemini API Error: <message>`. -/
def callVertexAIImageAPI (_base64ImageData _mimeType prompt : String)
    (_referenceImages : List ImagePart) (w : World) : Except String AIResult :=
  match w.vertexGen prompt with
  | .error msg => .error ("Vertex AI Gemini API Error: " ++ msg)
  | .ok resp =>
    match extractImageText resp with
    | .error msg => .error ("Vertex AI Gemini API Error: " ++ msg)
    | .ok (_, text) =>
      .ok { imageBase64 := none
            text := some (if jsTruthy text then text.getD ""
                          else "Generated outfit description from Vertex AI") }

/-- Vertex `generateOutfit`: parse the optional top/bottom data URLs into
reference images and delegate to `callVertexAIImageAPI`. -/
def generateOutfit (base64ImageData mimeType prompt : String)
    (topImageUrl bottomImageUrl : Option String) (w : World) : Except String AIResult :=
  let referenceImages :=
    (match topImageUrl.bind parseDataUrl with | some p => [p] | none => []) ++
    (match bottomImageUrl.bind parseDataUrl with | some p => [p] | none => [])
  callVertexAIImageAPI base64ImageData mimeType prompt referenceImages w

/-- The 14 styles of the Vertex design prompt. -/
def vertexStyles : List String :=
  ["casual chic", "streetwear", "business casual", "minimalist", "bohemian",
   "preppy", "athletic leisure", "vintage-inspired", "smart casual", "edgy rock",
   "classic", "avant-garde", "eclectic", "sophisticated urban"]

/-- The analysis/recommendation prompt of the Vertex
`generateAndRecommendOutfit`. -/
def outfitPrompt (randomStyle currentSeason : String) : String :=
  "Task: Fashion Analysis and Outfit Recommendation.\n1. Analyze the person in the image.\n2. Design a stylish, complete outfit (top and bottom) in a creative **" ++
  randomStyle ++ "** style that would suit them.\n3. The outfit must be appropriate for the current **" ++
  currentSeason ++ "** season.\n4. Describe the recommended outfit in detail, including:\n   - Specific clothing items (tops, bottoms, accessories)\n   - Colors and patterns that would work well\n   - Style reasoning based on the person's appearance\n   - How the outfit fits the " ++
  currentSeason ++ " season\n   - Background/setting suggestions that would complement the look\n\nPlease provide a detailed description of the complete outfit recommendation."

/-- Vertex `generateAndRecommendOutfit`. Draw 0 picks the style. -/
def generateAndRecommendOutfit (base64ImageData mimeType : String)
    (w : World) : Except String AIResult :=
  let randomStyle := vertexStyles.getD (w.rand 0 % vertexStyles.length) ""
  let currentSeason := getCurrentSeason w.month
  callVertexAIImageAPI base64ImageData mimeType (outfitPrompt randomStyle currentSeason) [] w

/-- The recommendation prompt of the Vertex `getStyleRecommendations`. -/
def recPrompt (closet : List ClothingItem) : String :=
  let closetDescriptions := String.intercalate "\n"
    (closet.map fun item =>
      "id: " ++ item.id ++ ", description: " ++ item.description ++ " (" ++
        item.type.toStr ++ ")")
  "You are a professional fashion stylist. Based on the following clothing items from a person's wardrobe, suggest 3 distinct outfit combinations.\n\nMy Wardrobe:\n" ++
  closetDescriptions ++
  "\n\nFor each outfit suggestion, provide:\n1. A creative style name\n2. A detailed description of why this combination works\n3. The specific item IDs to combine (topId and/or bottomId)\n\nReturn your response as a JSON array with this exact structure:\n[\n  \x7b\n    \"styleName\": \"Style Name\",\n    \"description\": \"Detailed description of the outfit and styling tips\",\n    \"topId\": 1,\n    \"bottomId\": 2\n  \x7d\n]\n\nIf an outfit only uses a top or only a bottom, omit the unused field. Ensure all IDs reference items from the provided wardrobe list."

/-- The regex extraction `textResponse?.match(/\[[\s\S]*\]/)`: the slice from
the first `[` to the last `]` when the latter comes after the former. -/
def extractBracketSlice (s : String) : Option String :=
  let cs := s.toList
  match List.findIdx? (· = '[') cs, List.findIdx? (· = ']') cs.reverse with
  | some i, some rj =>
    let j := cs.length - 1 - rj
    if i < j then some (((cs.drop i).take (j - i + 1)).asString) else none
  | _, _ => none

/-- Vertex `getStyleRecommendations`: reads `candidates[0].content.parts[0]
.text`, tries to cut a JSON array out of it, parses it, and falls back to an
empty array when there is nothing to parse; a failed `JSON.parse` (or a
`TypeError` from the response reads) is rethrown as
`Vertex AI API Error: <message>`. -/
def getStyleRecommendations (closet : List ClothingItem) (w : World) : Except String Json :=
  match w.vertexGen (recPrompt closet) with
  | .error msg => .error ("Vertex AI API Error: " ++ msg)
  | .ok resp =>
    match guardParts resp with
    | .error msg => .error ("Vertex AI API Error: " ++ msg)
    | .ok none => .ok (Json.arr [])
    | .ok (some []) =>
      .error ("Vertex AI API Error: " ++ "Cannot read properties of undefined (reading 'text')")
    | .ok (some (firstPart :: _)) =>
      match firstPart.text with
      | none => .ok (Json.arr [])
      | some textResponse =>
        match extractBracketSlice textResponse with
        | none => .ok (Json.arr [])
        | some jsonMatch =>
          match jsonParse jsonMatch with
          | some recommendations => .ok recommendations
          | none => .error ("Vertex AI API Error: " ++ jsonParseErrorMsg)

/-- The description prompt of the Vertex `generateClothingItem`. -/
def clothingPrompt (style color : String) (type : ClothingType)
    (customDescription : String) : String :=
  "Create a detailed description for generating an image of a " ++
  type.toStr.toLower ++
  " with the following specifications:\n- Style: " ++ style ++ "\n- Color: " ++ color ++
  "\n- Description: " ++ customDescription ++
  "\n\nThe description should be suitable for an AI image generation model to create a high-quality, professional studio photograph of the clothing item against a white background."

/-- Vertex `generateClothingItem`: no image model is invoked at all — the
text model's description is returned base64-encoded (`btoa(description)`,
with `description` defaulting to the empty string when the first part's text
is falsy; a `btoa` throw on non-Latin-1 text happens inside the `try` and is
rethrown wrapped); a response failing the candidates guard produces the
`No response generated` failure, wrapped as `Vertex AI API Error:
<message>`. -/
def generateClothingItem (style color : String) (type : ClothingType)
    (customDescription : String) (w : World) : Except String String :=
  match w.vertexGen (clothingPrompt style color type customDescription) with
  | .error msg => .error ("Vertex AI API Error: " ++ msg)
  | .ok resp =>
    match guardParts resp with
    | .error msg => .error ("Vertex AI API Error: " ++ msg)
    | .ok none => .error ("Vertex AI API Error: " ++ "No response generated")
    | .ok (some []) =>
      .error ("Vertex AI API Error: " ++ "Cannot read properties of undefined (reading 'text')")
    | .ok (some (firstPart :: _)) =>
      let description := if jsTruthy firstPart.text then firstPart.text.getD "" else ""
      match btoa description with
      | .ok encoded => .ok encoded
      | .error msg => .error ("Vertex AI API Error: " ++ msg)

/-- The probe prompt of `testVertexAIConnection`. -/
def helloPrompt : String := "Hello, can you respond with \"Vertex AI is working\"?"

/-- `testVertexAIConnection`: a trivial text round-trip; `true` exactly when
the response passes the candidates guard and has a first part (any thrown
error — including the `TypeError` from reading `parts[0].text` of an empty
parts array — is caught and yields `false`). -/
def testVertexAIConnection (w : World) : Bool :=
  match w.vertexGen helloPrompt with
  | .error _ => false
  | .ok resp =>
    match guardParts resp with
    | .error _ => false
    | .ok none => false
    | .ok (some []) => false
    | .ok (some (_ :: _)) => true

end VertexAI

/-- The `AIService` interface every adapter implements (the factory's service
records bind each field to the corresponding module function; each operation
additionally receives the `World` it runs against). Note that the interface's
`getStyleRecommendations` takes the closet only — it has no feedback
parameter. -/
structure AIService where
  generateOutfit : String → String → String → Option String → Option String →
    World → Except String AIResult
  generateAndRecommendOutfit : String → String → World → Except String AIResult
  getStyleRecommendations : List ClothingItem → World → Except String Json
  generateClothingItem : String → String → ClothingType → String →
    World → Except String String

namespace Factory

/-!
Embedding of the `AIServiceFactory` module (`aiServiceFactory`): the
environment it reads, the singleton's mutable fields, `getService` with its
try/catch fallback, `switchService`, and the re-exported facade functions.
The `constructions` counter instruments how many times an `AIService` record
was built (one per `initialize*` run, successful or not); the sources have no
such counter, but the spec's idempotence property is stated in terms of one,
"verify via a construction counter on a fake adapter".
-/

/-- The environment variables the factory and the adapters' constructions
read. `none` is an unset variable. -/
structure Env where
  aiServiceType : Option String := none
  googleCloudProjectId : Option String := none
  apiKey : Option String := none
  geminiApiKey : Option String := none

/-- The singleton's mutable state: `currentService`, `serviceType`, plus the
instrumentation counter. -/
structure FState where
  currentService : Option AIService := none
  serviceType : String := "mock"
  constructions : Nat := 0

/-- The mock `AIService` record built by `initializeMockService` (cannot
fail). -/
def mockAdapter : AIService where
  generateOutfit := fun b m p t bo w => .ok (MockService.generateOutfit b m p t bo w.rand)
  generateAndRecommendOutfit := fun b m w => .ok (MockService.generateAndRecommendOutfit b m w.rand)
  getStyleRecommendations := fun closet w => .ok (MockService.getStyleRecommendations closet w.rand)
  generateClothingItem := fun s c ty d w => MockService.generateClothingItem s c ty d w.rand

/-- The direct-Gemini `AIService` record built by `initializeGeminiDirect`.
Its `getStyleRecommendations` field is the two-parameter module function, so
a call through the interface leaves `feedback` as `undefined`. -/
def directAdapter : AIService where
  generateOutfit := GeminiDirect.generateOutfit
  generateAndRecommendOutfit := GeminiDirect.generateAndRecommendOutfit
  getStyleRecommendations := fun closet w => GeminiDirect.getStyleRecommendations closet none w
  generateClothingItem := GeminiDirect.generateClothingItem

/-- The Vertex AI `AIService` record built by `initializeVertexAI`. -/
def vertexAdapter : AIService where
  generateOutfit := VertexAI.generateOutfit
  generateAndRecommendOutfit := VertexAI.generateAndRecommendOutfit
  getStyleRecommendations := VertexAI.getStyleRecommendations
  generateClothingItem := VertexAI.generateClothingItem

/-- JS truthiness of an environment variable. -/
def envTruthy (v : Option String) : Bool := jsTruthy v

/-- `initializeVertexAI`: require `GOOGLE_CLOUD_PROJECT_ID`, import the
module (which cannot throw), then require a passing
`testVertexAIConnection`. -/
def initVertexAI (env : Env) (w : World) : Except String AIService :=
  if !envTruthy env.googleCloudProjectId then
    .error "GOOGLE_CLOUD_PROJECT_ID not configured"
  else if VertexAI.testVertexAIConnection w then
    .ok vertexAdapter
  else
    .error "Vertex AI connection test failed"

/-- `initializeGeminiDirect`: require `API_KEY` or `GEMINI_API_KEY`; the
`import('./geminiService')` then throws `API_KEY environment variable not
set` whenever `API_KEY` itself is falsy (the module's top-level guard); the
probe call `getStyleRecommendations([])` rethrows only the recognised
geo-restriction signatures — every other probe failure is swallowed. -/
def initGeminiDirect (env : Env) (w : World) : Except String AIService :=
  if !envTruthy env.apiKey && !envTruthy env.geminiApiKey then
    .error "Gemini API key not configured"
  else if !envTruthy env.apiKey then
    .error "API_KEY environment variable not set"
  else
    match GeminiDirect.getStyleRecommendations [] none w with
    | .ok _ => .ok directAdapter
    | .error msg =>
      if containsSubstr msg "User location is not supported" ||
          containsSubstr msg "FAILED_PRECONDITION" then
        .error "Gemini Direct API not available in your region"
      else
        .ok directAdapter

/-- `(process.env.AI_SERVICE_TYPE as ServiceType) || 'gemini-direct'`. -/
def configuredService (env : Env) : String :=
  match env.aiServiceType with
  | none => "gemini-direct"
  | some s => if s = "" then "gemini-direct" else s

/-- The body of `getService`'s `switch`: construct the configured service
(the `mock`/`default` cases build the mock, which cannot fail). -/
def attemptPreferred (env : Env) (w : World) : Except String AIService :=
  let configured := configuredService env
  if configured = "vertex-ai" then initVertexAI env w
  else if configured = "gemini-direct" then initGeminiDirect env w
  else .ok mockAdapter

/-- The `serviceType` tag the `switch` assigns alongside a successful
construction. -/
def attemptedType (env : Env) : String :=
  let configured := configuredService env
  if configured = "vertex-ai" then "vertex-ai"
  else if configured = "gemini-direct" then "gemini-direct"
  else "mock"

/-- `getService`: return the cached selection if there is one; otherwise run
the configured construction, and on failure fall back to the mock unless the
configured kind was already `mock`, in which case the failure is rethrown. -/
def getService (env : Env) (w : World) (s : FState) : Except String AIService × FState :=
  match s.currentService with
  | some svc => (.ok svc, s)
  | none =>
    match attemptPreferred env w with
    | .ok svc =>
      (.ok svc,
       { currentService := some svc, serviceType := attemptedType env,
         constructions := s.constructions + 1 })
    | .error e =>
      if configuredService env ≠ "mock" then
        (.ok mockAdapter,
         { currentService := some mockAdapter, serviceType := "mock",
           constructions := s.constructions + 2 })
      else
        (.error e, { s with constructions := s.constructions + 1 })

/-- `switchService`: clear the cached selection, overwrite
`process.env.AI_SERVICE_TYPE`, and re-run `getService`; returns the result
together with the updated environment and state. -/
def switchService (serviceType : String) (env : Env) (w : World) (s : FState) :
    Except String AIService × Env × FState :=
  let env' := { env with aiServiceType := some serviceType }
  let r := getService env' w { s with currentService := none }
  (r.1, env', r.2)

/-- Facade `generateOutfit`: `await getService()` then delegate. -/
def generateOutfit (env : Env) (w : World) (s : FState)
    (base64ImageData mimeType prompt : String)
    (topImageUrl bottomImageUrl : Option String) : Except String AIResult × FState :=
  let r := getService env w s
  match r.1 with
  | .ok service => (service.generateOutfit base64ImageData mimeType prompt topImageUrl bottomImageUrl w, r.2)
  | .error e => (.error e, r.2)

/-- Facade `generateAndRecommendOutfit`. -/
def generateAndRecommendOutfit (env : Env) (w : World) (s : FState)
    (base64ImageData mimeType : String) : Except String AIResult × FState :=
  let r := getService env w s
  match r.1 with
  | .ok service => (service.generateAndRecommendOutfit base64ImageData mimeType w, r.2)
  | .error e => (.error e, r.2)

/-- Facade `getStyleRecommendations`: note the single `closet` parameter —
the facade offers no way to pass feedback. -/
def getStyleRecommendations (env : Env) (w : World) (s : FState)
    (closet : List ClothingItem) : Except String Json × FState :=
  let r := getService env w s
  match r.1 with
  | .ok service => (service.getStyleRecommendations closet w, r.2)
  | .error e => (.error e, r.2)

/-- Facade `generateClothingItem`. -/
def generateClothingItem (env : Env) (w : World) (s : FState)
    (style color : String) (type : ClothingType) (customDescription : String) :
    Except String String × FState :=
  let r := getService env w s
  match r.1 with
  | .ok service => (service.generateClothingItem style color type customDescription w, r.2)
  | .error e => (.error e, r.2)

end Factory

/-- Does the association list bind `key` to a JSON string? -/
def hasStrField (fields : List (String × Json)) (key : String) : Bool :=
  match fields.lookup key with
  | some (Json.str _) => true
  | _ => false

/-- A syntactically valid recommendation: an object with string `styleName`
and `description` (the two required fields of the response schema /
`StyleRecommendation`). -/
def isValidRec : Json → Bool
  | .obj fields => hasStrField fields "styleName" && hasStrField fields "description"
  | _ => false

/-- A syntactically valid recommendation list: a JSON array of valid
recommendations (possibly empty). -/
def isValidRecList : Json → Bool
  | .arr elems => elems.all isValidRec
  | _ => false

/-! ### Concrete instances used by witnesses and counterexamples -/

/-- A world whose every oracle fails and whose randomness is constant. -/
def wNull : World := {}

/-- A fresh factory state (nothing selected yet). -/
def sFresh : Factory.FState := {}

/-- An empty environment. -/
def envAny : Factory.Env := {}

/-- Environment preferring the direct backend with no API key configured. -/
def envDirectNoKey : Factory.Env := { aiServiceType := some "gemini-direct" }

/-- Environment preferring the mock backend but with a direct API key
available (for a later `switchService('gemini-direct')`). -/
def envMockPref : Factory.Env := { aiServiceType := some "mock", apiKey := some "key" }

/-- World in which the structured direct recommendation call answers `[1]`
to every prompt. -/
def wDirectOk : World := { directRecs := fun _ => .ok "[1]" }

/-- Factory state with the mock adapter already cached (one construction so
far). -/
def sCachedMock : Factory.FState :=
  { currentService := some Factory.mockAdapter, serviceType := "mock", constructions := 1 }

/-- Factory state with the direct adapter already cached. -/
def sCachedDirect : Factory.FState :=
  { currentService := some Factory.directAdapter, serviceType := "gemini-direct",
    constructions := 1 }

/-- A response whose single candidate carries exactly one text part. -/
def oneTextResp (t : String) : GResponse :=
  { candidates := some [{ content := some { parts := some [{ text := some t }] } }] }

/-- A model response carrying a text part and no image part. -/
def respTextOnly : GResponse := oneTextResp "AI 造型師筆記"

/-- World for the text-only degradation scenario: the design step yields a
description, the edit step then answers with text but no image. -/
def wTextOnly : World :=
  { directDesign := fun _ => .ok "一件米白色的寬鬆亞麻襯衫，搭配深藍色長褲。",
    directEdit := fun _ => .ok respTextOnly }

/-- A single TOP closet item. -/
def itemTop : ClothingItem :=
  { id := "top-1", type := ClothingType.TOP, description := "blue shirt", imageUrl := "" }

/-- A Vertex response whose only part is prose containing no JSON array. -/
def respPlainText : GResponse :=
  oneTextResp "Sorry, I cannot produce the requested format."

/-- World in which the Vertex model answers plain prose to every prompt. -/
def wVertexPlain : World := { vertexGen := fun _ => .ok respPlainText }

/-- World in which the structured direct recommendation call answers
non-JSON text. -/
def wDirectBadJson : World := { directRecs := fun _ => .ok "not json" }

/-- A stub adapter whose `compositeOutfit` resolves with the null-null
tuple (the stub of the spec's P3 test). -/
def stubNullAdapter : AIService where
  generateOutfit := fun _ _ _ _ _ _ => .ok { imageBase64 := none, text := none }
  generateAndRecommendOutfit := fun _ _ _ => .ok { imageBase64 := none, text := none }
  getStyleRecommendations := fun _ _ => .ok (Json.arr [])
  generateClothingItem := fun _ _ _ _ _ => .ok ""

/-- Factory state with the null-null stub installed as the selection. -/
def sStub : Factory.FState :=
  { currentService := some stubNullAdapter, serviceType := "mock", constructions := 1 }

/-- A model response with no `candidates` field at all. -/
def respNoCands : GResponse := { candidates := none }

/-- World in which the image-edit model returns a response with neither image
nor text. -/
def wEditEmpty : World := { directEdit := fun _ => .ok respNoCands }

/-- World whose structured direct recommendation oracle distinguishes
prompts that carry the feedback section (marked by the substring
`使用者表示`) from those that do not. -/
def wFeedbackSensitive : World :=
  { directRecs := fun p => .ok (if containsSubstr p "使用者表示" then "[1]" else "[2]") }

/-- A Vertex response whose only part is a garment description. -/
def respDesc : GResponse := oneTextResp "A blue casual top."

/-- World in which the Vertex model answers with `respDesc`. -/
def wVertexDesc : World := { vertexGen := fun _ => .ok respDesc }

/-- World in which the image-generation endpoint succeeds with zero generated
images. -/
def wNoImages : World := { directImages := fun _ => .ok (some []) }

/-! ## Helper lemmas -/

/-- Base64-encoding a non-empty byte list yields a non-empty digit list. -/
theorem base64Encode_ne_nil (l : List Nat) (h : l ≠ []) : base64Encode l ≠ [] := by
  match l with
  | [] => exact absurd rfl h
  | [_] => simp [base64Encode]
  | [_, _] => simp [base64Encode]
  | _ :: _ :: _ :: _ => simp [base64Encode]

/-- `btoa` of a non-empty Latin-1 string succeeds with a non-empty base64
string. -/
theorem btoa_ok_ne_empty (s : String) (h : s.data ≠ []) (hl : isLatin1 s = true) :
    btoa s = .ok ((base64Encode (s.toList.map Char.toNat)).asString) ∧
    (base64Encode (s.toList.map Char.toNat)).asString ≠ "" := by
  constructor
  · simp [btoa, hl]
  · intro hcontra
    have hdata : (base64Encode (s.toList.map Char.toNat)) = [] := congrArg String.data hcontra
    have hmap : s.toList.map Char.toNat ≠ [] := by
      intro hh
      exact h (List.map_eq_nil_iff.mp hh)
    exact base64Encode_ne_nil _ hmap hdata

/-- Latin-1-ness distributes over string concatenation. -/
theorem isLatin1_append (s t : String) :
    isLatin1 (s ++ t) = (isLatin1 s && isLatin1 t) := by
  simp [isLatin1, String.toList, String.data_append, List.all_append]

set_option maxRecDepth 100000 in
/-- The mock SVG is Latin-1 whenever the three interpolated string arguments
are (its fixed template text and both `ClothingType` names are ASCII). -/
theorem isLatin1_mockSvg (style color : String) (ty : ClothingType) (desc : String)
    (hs : isLatin1 style = true) (hc : isLatin1 color = true) (hd : isLatin1 desc = true) :
    isLatin1 (MockService.mockSvg style color ty desc) = true := by
  have hty : isLatin1 ty.toStr = true := by cases ty <;> decide
  simp only [MockService.mockSvg, isLatin1_append, hs, hc, hd, hty,
    Bool.and_true, Bool.true_and]
  decide

/-- Every serialised mock recommendation is syntactically valid. -/
theorem isValidRec_mockRec (r : MockService.MockRec) :
    isValidRec (MockService.MockRec.toJson r) = true := by
  cases r with
  | mk styleName description topId bottomId =>
    cases topId <;> cases bottomId <;>
      simp [MockService.MockRec.toJson, isValidRec, hasStrField, List.lookup]

/-- The mock recommendation list is always a syntactically valid (possibly
empty) recommendation array, whatever the closet. -/
theorem mock_recs_valid (closet : List ClothingItem) (rand : Nat → Nat) :
    isValidRecList (MockService.getStyleRecommendations closet rand) = true := by
  unfold MockService.getStyleRecommendations
  split
  · simp [isValidRecList]
  · simp only [isValidRecList, List.all_eq_true]
    intro x hx
    obtain ⟨r, _, rfl⟩ := List.mem_map.mp hx
    exact isValidRec_mockRec r

/-! ## Claims -/

/-- **C1.** If the configured preferred backend kind is not `mock` and
constructing or probing the preferred adapter throws, then `getService`
resolves with the mock adapter's capability set (and caches it); no exception
escapes selection. -/
theorem selector_absorbs_preferred_failure (env : Factory.Env) (w : World)
    (s : Factory.FState) (e : String)
    (hfresh : s.currentService = none)
    (hkind : Factory.configuredService env ≠ "mock")
    (hthrow : Factory.attemptPreferred env w = .error e) :
    (Factory.getService env w s).1 = .ok Factory.mockAdapter ∧
    (Factory.getService env w s).2.currentService = some Factory.mockAdapter := by
  unfold Factory.getService
  rw [hfresh, hthrow]
  simp [hkind]

/-- Witness for C1: preferred kind `gemini-direct` with no API key configured
falls back to the mock adapter. -/
theorem selector_absorbs_preferred_failure_witness :
    sFresh.currentService = none ∧
    Factory.configuredService envDirectNoKey ≠ "mock" ∧
    Factory.attemptPreferred envDirectNoKey wNull = .error "Gemini API key not configured" ∧
    ((Factory.getService envDirectNoKey wNull sFresh).1 = .ok Factory.mockAdapter ∧
     (Factory.getService envDirectNoKey wNull sFresh).2.currentService = some Factory.mockAdapter) :=
  ⟨rfl, by decide, rfl,
   selector_absorbs_preferred_failure envDirectNoKey wNull sFresh
     "Gemini API key not configured" rfl (by decide) rfl⟩

/-- **C2** (counterexample). The factory does have an operation that replaces
the cached adapter and re-runs construction/probing mid-session:
`switchService('gemini-direct')` on a state whose cached selection is the
mock adapter re-probes (the construction count rises from 1 to 2) and
installs the direct adapter, a different adapter instance. -/
theorem switchService_replaces_cached_adapter :
    (Factory.switchService "gemini-direct" envMockPref wDirectOk sCachedMock).2.2.currentService =
      some Factory.directAdapter ∧
    (Factory.switchService "gemini-direct" envMockPref wDirectOk sCachedMock).2.2.constructions = 2 ∧
    Factory.directAdapter ≠ Factory.mockAdapter := by
  refine ⟨rfl, rfl, ?_⟩
  intro hEq
  have hApp := congrArg (fun ad => ad.getStyleRecommendations [] wDirectOk) hEq
  simp only [] at hApp
  rw [show Factory.directAdapter.getStyleRecommendations [] wDirectOk =
        Except.ok (Json.arr [Json.num 1]) from rfl,
      show Factory.mockAdapter.getStyleRecommendations [] wDirectOk =
        Except.ok (Json.arr []) from rfl] at hApp
  simp at hApp

/-- **C2** (amended). Once a selection has been cached, every call to
`getService` returns the very same adapter instance with the state — in
particular the construction counter — unchanged; only `switchService`, which
deliberately clears the cache, replaces the cached adapter. -/
theorem getService_cached_is_stable (env : Factory.Env) (w : World)
    (s : Factory.FState) (a : AIService)
    (hcached : s.currentService = some a) :
    Factory.getService env w s = (.ok a, s) := by
  unfold Factory.getService
  rw [hcached]

/-- Witness for the amended C2: with the mock adapter cached, `getService`
hands it back and leaves the state untouched. -/
theorem getService_cached_is_stable_witness :
    sCachedMock.currentService = some Factory.mockAdapter ∧
    Factory.getService envMockPref wNull sCachedMock = (.ok Factory.mockAdapter, sCachedMock) :=
  ⟨rfl, getService_cached_is_stable envMockPref wNull sCachedMock Factory.mockAdapter rfl⟩

/-- **C3** (counterexample). The direct adapter's `composeAndRecommend` does
*not* hand back the text-only tuple: with the design step succeeding and the
edit step succeeding with a non-null text but a null image, the operation
rejects with the fixed please-retry message instead of resolving. -/
theorem direct_composeAndRecommend_rejects_text_only :
    GeminiDirect.generateAndRecommendOutfit "subject-base64" "image/png" wTextOnly =
      .error "抱歉，AI 暫時無法完成這次的虛擬試穿。請稍後再試一次。" := rfl

/-- **C3** (amended). When the underlying model call succeeds with a non-null
text description but a null image, the Vertex AI (proxied) adapter's
`composeAndRecommend` resolves with exactly the tuple
`{imageBase64: null, text: that description}`; the direct adapter instead
rejects in that situation (see the counterexample). -/
theorem vertex_composeAndRecommend_partial_success (b m : String) (w : World)
    (resp : GResponse) (t : String)
    (hresp : w.vertexGen
        (VertexAI.outfitPrompt
          (VertexAI.vertexStyles.getD (w.rand 0 % VertexAI.vertexStyles.length) "")
          (VertexAI.getCurrentSeason w.month)) = .ok resp)
    (hext : extractImageText resp = .ok (none, some t))
    (ht : t ≠ "") :
    VertexAI.generateAndRecommendOutfit b m w =
      .ok { imageBase64 := none, text := some t } := by
  simp only [VertexAI.generateAndRecommendOutfit, VertexAI.callVertexAIImageAPI, hresp, hext]
  simp [jsTruthy, ht]

/-- Witness for the amended C3: a Vertex world answering a pure description
yields the text-only partial success. -/
theorem vertex_composeAndRecommend_partial_success_witness :
    wVertexDesc.vertexGen
        (VertexAI.outfitPrompt
          (VertexAI.vertexStyles.getD (wVertexDesc.rand 0 % VertexAI.vertexStyles.length) "")
          (VertexAI.getCurrentSeason wVertexDesc.month)) = .ok respDesc ∧
    extractImageText respDesc = .ok (none, some "A blue casual top.") ∧
    VertexAI.generateAndRecommendOutfit "subject" "image/png" wVertexDesc =
      .ok { imageBase64 := none, text := some "A blue casual top." } :=
  ⟨rfl, rfl,
   vertex_composeAndRecommend_partial_success "subject" "image/png" wVertexDesc respDesc
     "A blue casual top." rfl rfl (by decide)⟩

/-- **C4** (counterexample). On malformed backend output, the Vertex AI
adapter's `recommendStyles` does *not* reject: with a response whose text
contains no JSON array, it resolves with the empty array. -/
theorem vertex_recommendStyles_empty_on_malformed :
    VertexAI.getStyleRecommendations [itemTop] wVertexPlain = .ok (Json.arr []) := rfl

/-- **C4** (amended). When the structured response text fails `JSON.parse`,
the *direct* adapter's `recommendStyles` rejects (the wrapped parse failure;
the code has no dedicated `SchemaViolation` type) rather than resolving with
an empty array; the Vertex AI adapter instead falls back to an empty array
when the text contains no JSON array (see the counterexample), and neither
adapter validates required fields of successfully parsed JSON. -/
theorem direct_recommendStyles_rejects_unparsable (closet : List ClothingItem)
    (feedback : Option (List (String × Pref))) (w : World) (txt : String)
    (hresp : w.directRecs (GeminiDirect.recPrompt closet feedback) = .ok txt)
    (hbad : jsonParse (jsTrim txt) = none) :
    GeminiDirect.getStyleRecommendations closet feedback w =
      .error ("Gemini API 錯誤: " ++ jsonParseErrorMsg) := by
  simp only [GeminiDirect.getStyleRecommendations, hresp, hbad]

/-- Witness for the amended C4: non-JSON text makes the direct adapter's
`recommendStyles` reject. -/
theorem direct_recommendStyles_rejects_unparsable_witness :
    wDirectBadJson.directRecs (GeminiDirect.recPrompt [] none) = .ok "not json" ∧
    jsonParse (jsTrim "not json") = none ∧
    GeminiDirect.getStyleRecommendations [] none wDirectBadJson =
      .error ("Gemini API 錯誤: " ++ jsonParseErrorMsg) :=
  ⟨rfl, rfl, direct_recommendStyles_rejects_unparsable [] none wDirectBadJson "not json" rfl rfl⟩

/-- **C5** (counterexample). The facade performs no empty-response check of
its own: with a selected adapter whose `compositeOutfit` yields
`{imageBase64: null, text: null}`, the facade call resolves with exactly that
null-null tuple instead of failing with an `EmptyResponse` error. -/
theorem facade_returns_null_null_unchecked :
    Factory.generateOutfit envAny wNull sStub "subject" "image/png" "wear this" none none =
      (.ok { imageBase64 := none, text := none }, sStub) := rfl

/-- **C5** (amended). The both-null guard lives inside the direct adapter:
whenever the image-edit response carries neither an image nor a text,
`callImageEditAPI` rejects (with the wrapped no-image message), so the
direct adapter's `compositeOutfit` never resolves with the null-null tuple;
the facade itself forwards whatever the selected adapter produced (see the
counterexample). -/
theorem callImageEditAPI_rejects_empty_response (b m p : String)
    (refs : List ImagePart) (w : World) (resp : GResponse)
    (hresp : w.directEdit p = .ok resp)
    (hempty : extractImageText resp = .ok (none, none)) :
    GeminiDirect.callImageEditAPI b m p refs w =
      .error ("Gemini API 錯誤: " ++ "Gemini API 回應無效。找不到圖片。") := by
  simp only [GeminiDirect.callImageEditAPI, hresp, hempty]
  simp [jsTruthy]

/-- Witness for the amended C5: a response with no candidates at all makes
`callImageEditAPI` reject with the no-image failure. -/
theorem callImageEditAPI_rejects_empty_response_witness :
    wEditEmpty.directEdit "edit it" = .ok respNoCands ∧
    extractImageText respNoCands = .ok (none, none) ∧
    GeminiDirect.callImageEditAPI "subject" "image/png" "edit it" [] wEditEmpty =
      .error ("Gemini API 錯誤: " ++ "Gemini API 回應無效。找不到圖片。") :=
  ⟨rfl, rfl,
   callImageEditAPI_rejects_empty_response "subject" "image/png" "edit it" [] wEditEmpty
     respNoCands rfl rfl⟩

set_option maxRecDepth 100000 in
/-- **C6** (counterexample). The facade's `recommendStyles` does *not*
forward any like/dislike feedback: the facade signature has no feedback
parameter, so through the facade the direct adapter always sees an absent
feedback argument. Against an oracle that answers `[1]` to prompts carrying
the feedback section and `[2]` otherwise, the facade call (with the direct
adapter selected) yields `[2]`, while the adapter's module function called
with a non-empty feedback map yields `[1]`. -/
theorem facade_drops_feedback :
    Factory.getStyleRecommendations envAny wFeedbackSensitive sCachedDirect [] =
      (.ok (Json.arr [Json.num 2]), sCachedDirect) ∧
    GeminiDirect.getStyleRecommendations [] (some [("Casual Weekend", Pref.liked)])
        wFeedbackSensitive = .ok (Json.arr [Json.num 1]) :=
  ⟨rfl, rfl⟩

/-- **C6** (amended). Each of the four facade functions obtains the selection
from `getService` and returns exactly what the selected adapter's
corresponding operation produces for the same arguments, with no additional
transformation — but the facade's `recommendStyles` forwards only the closet
list; it exposes no feedback parameter, so the adapter's optional feedback
argument is always absent on facade calls. -/
theorem facade_delegates_to_selected_adapter (env : Factory.Env) (w : World)
    (s s' : Factory.FState) (a : AIService)
    (hsel : Factory.getService env w s = (.ok a, s'))
    (b m p : String) (top bottom : Option String) (closet : List ClothingItem)
    (style color : String) (ty : ClothingType) (desc : String) :
    Factory.generateOutfit env w s b m p top bottom =
      (a.generateOutfit b m p top bottom w, s') ∧
    Factory.generateAndRecommendOutfit env w s b m =
      (a.generateAndRecommendOutfit b m w, s') ∧
    Factory.getStyleRecommendations env w s closet =
      (a.getStyleRecommendations closet w, s') ∧
    Factory.generateClothingItem env w s style color ty desc =
      (a.generateClothingItem style color ty desc w, s') := by
  refine ⟨?_, ?_, ?_, ?_⟩ <;>
    simp only [Factory.generateOutfit, Factory.generateAndRecommendOutfit,
      Factory.getStyleRecommendations, Factory.generateClothingItem, hsel]

/-- Witness for the amended C6: with the mock adapter cached, every facade
call returns the adapter's own result. -/
theorem facade_delegates_to_selected_adapter_witness :
    Factory.getService envAny wNull sCachedMock = (.ok Factory.mockAdapter, sCachedMock) ∧
    (Factory.generateOutfit envAny wNull sCachedMock "b" "image/png" "p" none none =
      (Factory.mockAdapter.generateOutfit "b" "image/png" "p" none none wNull, sCachedMock) ∧
     Factory.generateAndRecommendOutfit envAny wNull sCachedMock "b" "image/png" =
      (Factory.mockAdapter.generateAndRecommendOutfit "b" "image/png" wNull, sCachedMock) ∧
     Factory.getStyleRecommendations envAny wNull sCachedMock [] =
      (Factory.mockAdapter.getStyleRecommendations [] wNull, sCachedMock) ∧
     Factory.generateClothingItem envAny wNull sCachedMock "casual" "blue" ClothingType.TOP "shirt" =
      (Factory.mockAdapter.generateClothingItem "casual" "blue" ClothingType.TOP "shirt" wNull,
       sCachedMock)) :=
  ⟨rfl,
   facade_delegates_to_selected_adapter envAny wNull sCachedMock sCachedMock Factory.mockAdapter
     rfl "b" "image/png" "p" none none [] "casual" "blue" ClothingType.TOP "shirt"⟩

/-- **C7** (counterexample). The Vertex AI adapter's `generateClothingImage`
does *not* fail when the backend returns zero generated images — it never
requests images at all and resolves with the base64-encoded text description
of its text-model response. -/
theorem vertex_generateClothingItem_resolves_without_images :
    VertexAI.generateClothingItem "casual" "blue" ClothingType.TOP "shirt" wVertexDesc =
      .ok "QSBibHVlIGNhc3VhbCB0b3Au" := rfl

/-- **C7** (amended). The *direct* adapter's `generateClothingImage` fails
(with the wrapped no-image message, so in particular it never resolves with an
empty string) whenever the backend returns an absent or empty
`generatedImages` array; the Vertex AI adapter instead resolves with an
encoded text description (see the counterexample). -/
theorem direct_generateClothingItem_rejects_zero_images (style color : String)
    (ty : ClothingType) (desc : String) (w : World)
    (himg : w.directImages (GeminiDirect.clothingPrompt style color ty desc) = .ok none ∨
            w.directImages (GeminiDirect.clothingPrompt style color ty desc) = .ok (some [])) :
    GeminiDirect.generateClothingItem style color ty desc w =
      .error ("Gemini API 錯誤: " ++ "AI 未回傳任何圖片。") := by
  rcases himg with h | h <;> simp only [GeminiDirect.generateClothingItem, h]

/-- Witness for the amended C7: zero generated images make the direct
adapter's `generateClothingImage` reject. -/
theorem direct_generateClothingItem_rejects_zero_images_witness :
    wNoImages.directImages (GeminiDirect.clothingPrompt "casual" "blue" ClothingType.TOP "shirt") =
      .ok (some []) ∧
    GeminiDirect.generateClothingItem "casual" "blue" ClothingType.TOP "shirt" wNoImages =
      .error ("Gemini API 錯誤: " ++ "AI 未回傳任何圖片。") :=
  ⟨rfl,
   direct_generateClothingItem_rejects_zero_images "casual" "blue" ClothingType.TOP "shirt"
     wNoImages (Or.inr rfl)⟩

/-- **C8.** On a closet with 0 or 1 items, `recommendStyles` does not throw:
the mock adapter always resolves with a syntactically valid (possibly empty)
recommendation array, and the direct adapter resolves with whatever the
backend's parsed response provides (its own behaviour introduces no
closet-size failure). -/
theorem recommendStyles_short_closet_tolerant (closet : List ClothingItem)
    (_hshort : closet.length ≤ 1) :
    (∀ w : World, ∃ j, Factory.mockAdapter.getStyleRecommendations closet w = .ok j ∧
        isValidRecList j = true) ∧
    (∀ (w : World) (txt : String) (j : Json),
        w.directRecs (GeminiDirect.recPrompt closet none) = .ok txt →
        jsonParse (jsTrim txt) = some j →
        GeminiDirect.getStyleRecommendations closet none w = .ok j) := by
  constructor
  · intro w
    exact ⟨_, rfl, mock_recs_valid closet w.rand⟩
  · intro w txt j hresp hparse
    simp only [GeminiDirect.getStyleRecommendations, hresp, hparse]

/-- Witness for C8: the one-item closet. -/
theorem recommendStyles_short_closet_tolerant_witness :
    ([itemTop] : List ClothingItem).length ≤ 1 ∧
    (∃ j, Factory.mockAdapter.getStyleRecommendations [itemTop] wNull = .ok j ∧
        isValidRecList j = true) ∧
    GeminiDirect.getStyleRecommendations [itemTop] none wDirectOk =
      .ok (Json.arr [Json.num 1]) :=
  ⟨by decide,
   (recommendStyles_short_closet_tolerant [itemTop] (by decide)).1 wNull,
   (recommendStyles_short_closet_tolerant [itemTop] (by decide)).2 wDirectOk "[1]"
     (Json.arr [Json.num 1]) rfl rfl⟩

set_option maxRecDepth 100000 in
/-- **C9** (counterexample). For arguments outside Latin-1 the mock
adapter's `generateClothingItem` does *not* return a base64 string at all:
`btoa` throws `InvalidCharacterError` on the interpolated SVG, so the call
rejects (for any randomness stream). -/
theorem mock_generateClothingItem_rejects_non_latin1 :
    MockService.generateClothingItem "休閒" "藍色" ClothingType.TOP "藍色的襯衫"
      (fun _ => 0) = .error "InvalidCharacterError" := rfl

/-- **C9** (amended). The mock adapter's `generateClothingItem` is
deterministic — its result does not depend on the randomness stream (only
the simulated delay does). When the three interpolated string arguments are
Latin-1, every pair of calls with the same four arguments returns the same
non-empty base64 string; an argument with a character beyond Latin-1 instead
makes `btoa` throw, so such calls reject (see the counterexample). -/
theorem mock_generateClothingItem_deterministic_nonempty (style color : String)
    (ty : ClothingType) (desc : String) (r1 r2 : Nat → Nat)
    (hs : isLatin1 style = true) (hc : isLatin1 color = true)
    (hd : isLatin1 desc = true) :
    MockService.generateClothingItem style color ty desc r1 =
      MockService.generateClothingItem style color ty desc r2 ∧
    ∃ b, MockService.generateClothingItem style color ty desc r1 = .ok b ∧ b ≠ "" := by
  refine ⟨rfl, ?_⟩
  have hne : (MockService.mockSvg style color ty desc).data ≠ [] := by
    intro hnil
    simp only [MockService.mockSvg, String.data_append, List.append_assoc,
      List.append_eq_nil] at hnil
    exact absurd hnil.1 (by decide)
  obtain ⟨heq, hb⟩ := btoa_ok_ne_empty _ hne (isLatin1_mockSvg style color ty desc hs hc hd)
  exact ⟨_, heq, hb⟩

/-- Witness for the amended C9: the spec's Scenario A arguments
`("casual", "blue", TOP, "shirt")` are Latin-1, and both calls return the
same non-empty base64 string. -/
theorem mock_generateClothingItem_deterministic_nonempty_witness :
    isLatin1 "casual" = true ∧ isLatin1 "blue" = true ∧ isLatin1 "shirt" = true ∧
    (MockService.generateClothingItem "casual" "blue" ClothingType.TOP "shirt" (fun _ => 0) =
       MockService.generateClothingItem "casual" "blue" ClothingType.TOP "shirt" (fun k => k + 7) ∧
     ∃ b, MockService.generateClothingItem "casual" "blue" ClothingType.TOP "shirt" (fun _ => 0) =
        .ok b ∧ b ≠ "") :=
  ⟨by decide, by decide, by decide,
   mock_generateClothingItem_deterministic_nonempty "casual" "blue" ClothingType.TOP "shirt"
     (fun _ => 0) (fun k => k + 7) (by decide) (by decide) (by decide)⟩

/-- **C10.** Every successful call to the Vertex AI (proxied) adapter's
`generateOutfit` or `generateAndRecommendOutfit` returns a null `imageBase64`
together with a non-null `text` — the proxied backend path never produces a
composited image. -/
theorem vertex_outfit_ops_text_only (b m p : String)
    (top bottom : Option String) (w : World) (r : AIResult)
    (h : VertexAI.generateOutfit b m p top bottom w = .ok r ∨
         VertexAI.generateAndRecommendOutfit b m w = .ok r) :
    r.imageBase64 = none ∧ r.text ≠ none := by
  have key : ∀ (b' m' p' : String) (refs : List ImagePart),
      VertexAI.callVertexAIImageAPI b' m' p' refs w = .ok r →
      r.imageBase64 = none ∧ r.text ≠ none := by
    intro b' m' p' refs hcall
    unfold VertexAI.callVertexAIImageAPI at hcall
    cases hgen : w.vertexGen p' with
    | error e =>
      simp only [hgen] at hcall
      exact Except.noConfusion hcall
    | ok resp =>
      simp only [hgen] at hcall
      cases hext : extractImageText resp with
      | error e =>
        simp only [hext] at hcall
        exact Except.noConfusion hcall
      | ok pair =>
        simp only [hext] at hcall
        simp only [Except.ok.injEq] at hcall
        rw [← hcall]
        simp
  rcases h with h | h
  · simp only [VertexAI.generateOutfit] at h
    exact key _ _ _ _ h
  · simp only [VertexAI.generateAndRecommendOutfit] at h
    exact key _ _ _ _ h

/-- Witness for C10: a successful Vertex `generateOutfit` call yields the
null-image, non-null-text shape. -/
theorem vertex_outfit_ops_text_only_witness :
    VertexAI.generateOutfit "subject" "image/png" "prompt" none none wVertexDesc =
      .ok { imageBase64 := none, text := some "A blue casual top." } ∧
    (({ imageBase64 := none, text := some "A blue casual top." } : AIResult).imageBase64 = none ∧
     ({ imageBase64 := none, text := some "A blue casual top." } : AIResult).text ≠ none) :=
  ⟨rfl,
   vertex_outfit_ops_text_only "subject" "image/png" "prompt" none none wVertexDesc
     { imageBase64 := none, text := some "A blue casual top." } (Or.inl rfl)⟩

end AIWardrobe
